import Mathlib

/-!
Shallow embedding of the paper-content acquisition and caching pipeline of
`src/backend/venv/app.py` (a Flask backend for an arXiv research dashboard).

Network and PDF-library effects cannot be executed here, so each I/O outcome
is an explicit input of the embedded function:

* `DocInput` carries the outcome of the HTTP download of a PDF and the
  outcomes of the two PDF text-extraction libraries (PyMuPDF primary,
  PyPDF2 secondary) on the downloaded bytes.
* `ArxivResult` carries the outcome of the arXiv metadata HTTP query
  (network failure / status code / parsed feed entries).
* The process-lifetime dictionary `paper_content_cache` is threaded through
  each request handler as an explicit association list.

Python string primitives used by the source (`str.strip`, `str.lower`,
`str.split`, slicing, `re.sub(r"\s+", " ", ·)`, substring containment and
`str.replace`) are modelled on `List Char`; the whitespace class is the
ASCII whitespace set used by Python for ASCII text.
-/

/-- Python whitespace class (ASCII part): the characters matched by
`\s` in `re` and stripped or split on by `str.strip` / `str.split`. -/
def isPySpace (c : Char) : Bool :=
  c = ' ' || c = '\t' || c = '\n' || c = '\r' || c = '\x0b' || c = '\x0c'

/-- Python `str.strip()` on a character list: drop whitespace from both ends. -/
def pyStrip (l : List Char) : List Char :=
  ((l.dropWhile isPySpace).reverse.dropWhile isPySpace).reverse

/-- Python `s.strip()` for strings. -/
def pyStripStr (s : String) : String := ⟨pyStrip s.data⟩

/-- Length of `s.strip()`: the quantity tested by the source's quality gate
`len(full_text.strip()) < 100`. -/
def strippedLen (s : String) : Nat := (pyStrip s.data).length

/-- Python slice `s[:n]`. -/
def pyTake (n : Nat) (s : String) : String := ⟨s.data.take n⟩

/-- Python slice `s[-n:]` (for `0 < n`): the last `n` characters, or the whole
string when it is shorter than `n`. -/
def pyTakeLast (n : Nat) (s : String) : String := ⟨s.data.drop (s.data.length - n)⟩

/-- Python `str.lower()` on a character list (ASCII case mapping). -/
def lowerList (l : List Char) : List Char := l.map Char.toLower

/-- Worker for Python `str.split()` with no separator: split on runs of
whitespace, discarding empty fields; `cur` is the reversed current word. -/
def splitWsGo (cur : List Char) : List Char → List (List Char)
  | [] => if cur.isEmpty then [] else [cur.reverse]
  | c :: rest =>
    if isPySpace c then
      if cur.isEmpty then splitWsGo [] rest else cur.reverse :: splitWsGo [] rest
    else splitWsGo (c :: cur) rest

/-- Python `str.split()` (whitespace tokenization). -/
def pySplitWs (l : List Char) : List (List Char) := splitWsGo [] l

/-- Boolean list-prefix test (needle first). -/
def startsWithChars : List Char → List Char → Bool
  | [], _ => true
  | _ :: _, [] => false
  | a :: as, b :: bs => a = b && startsWithChars as bs

/-- Python substring containment `needle in haystack`. -/
def containsSub (needle : List Char) : List Char → Bool
  | [] => needle.isEmpty
  | c :: rest => startsWithChars needle (c :: rest) || containsSub needle rest

/-- Worker for `re.sub(r"\s+", " ", ·)`: the flag records whether we are
inside a whitespace run that has already emitted its single space. -/
def collapseGo : Bool → List Char → List Char
  | _, [] => []
  | true, c :: rest =>
    if isPySpace c then collapseGo true rest else c :: collapseGo false rest
  | false, c :: rest =>
    if isPySpace c then ' ' :: collapseGo true rest else c :: collapseGo false rest

/-- `re.sub(r"\s+", " ", s)` from the source (line 160): collapse every run of
whitespace characters to a single space. -/
def normalizeSummary (s : String) : String := ⟨collapseGo false s.data⟩

/-! ## Document Resolver (source lines 41–44) -/

/-- Python `'arxiv.org/abs/' in paper_link`. -/
def hasArxivAbs : List Char → Bool
  | 'a' :: 'r' :: 'x' :: 'i' :: 'v' :: '.' :: 'o' :: 'r' :: 'g' :: '/' :: 'a' :: 'b' :: 's' :: '/' :: _ => true
  | _ :: rest => hasArxivAbs rest
  | [] => false

/-- Python `paper_link.replace('/abs/', '/pdf/')`: replace every
non-overlapping occurrence, scanning left to right. -/
def replaceAbs : List Char → List Char
  | '/' :: 'a' :: 'b' :: 's' :: '/' :: rest => '/' :: 'p' :: 'd' :: 'f' :: '/' :: replaceAbs rest
  | c :: rest => c :: replaceAbs rest
  | [] => []

/-- The link-resolution step of `download_paper_pdf` (source lines 41–44):
arXiv abstract links are rewritten to PDF download links, everything else
passes through unchanged. -/
def resolveLink (link : String) : String :=
  if hasArxivAbs link.data then (⟨replaceAbs link.data⟩ : String) ++ ".pdf" else link

/-! ## Text Extractor (source lines 37–103, `download_paper_pdf`) -/

/-- Outcomes of the effectful steps inside `download_paper_pdf` for one
document: whether the HTTP download succeeded with status 200, and the result
of each PDF library on the downloaded bytes (`Except.error` models the
library raising an exception; `Except.ok pages` the per-page extracted
texts, in page order). -/
structure DocInput where
  downloadOk : Bool
  primary : Except Unit (List String)
  secondary : Except Unit (List String)

/-- The PyMuPDF accumulation loop (source lines 65–68): for each page,
append `"\n--- Page N ---\n"` (1-indexed) followed by the page text. -/
def primaryPagesText : Nat → List String → String
  | _, [] => ""
  | n, t :: rest => "\n--- Page " ++ toString n ++ " ---\n" ++ t ++ primaryPagesText (n + 1) rest

/-- Full text produced by the primary (PyMuPDF) extraction. -/
def primaryFullText (pages : List String) : String := primaryPagesText 1 pages

/-- The PyPDF2 accumulation loop (source lines 87–88): each page text
followed by a newline. -/
def secondaryFullText : List String → String
  | [] => ""
  | t :: rest => t ++ "\n" ++ secondaryFullText rest

/-- `download_paper_pdf` (source lines 37–103). A download failure (network
error, `raise_for_status`, or non-200 status) returns `none` via the outer
exception handler. On primary success the quality gate
`len(full_text.strip()) < 100` returns `none` directly; only when the
primary extractor raises is the secondary (PyPDF2) extractor attempted,
with the same gate. All failures return `none`. -/
def download_paper_pdf (link : String) (d : DocInput) : Option String :=
  let _pdfLink := resolveLink link
  if d.downloadOk then
    match d.primary with
    | .ok pages =>
      let fullText := primaryFullText pages
      if strippedLen fullText < 100 then none else some fullText
    | .error _ =>
      match d.secondary with
      | .ok pages =>
        let fullText := secondaryFullText pages
        if strippedLen fullText < 100 then none else some fullText
      | .error _ => none
  else none

/-- A 100-character body of extracted text, used as a concrete page text
whose stripped length passes the quality gate. -/
def goodPage : String := ⟨List.replicate 100 'a'⟩

/-! ## Metadata Fetcher (source lines 105–206) -/

/-- The paper dictionary built by `fetch_arxiv_papers_simple` /
`get_mock_papers_for_query`. `category` is `none` on the live path (the key
is only ever added on the mock path, source line 204). -/
structure Paper where
  id : String
  title : String
  authors : List String
  summary : String
  link : String
  published : String
  has_full_text : Bool
  category : Option String
deriving DecidableEq

/-- One `<author>` element of a feed entry: absent `<name>` child (the
author is silently skipped, source line 150), a `<name>` child with no text
(`.strip()` on `None` raises, killing the whole entry), or a name string. -/
inductive AuthorElem
  | noName
  | nameNoText
  | nameText (s : String)
deriving DecidableEq

/-- One `<entry>` of the arXiv Atom feed, as seen by the parsing loop
(source lines 140–168). A `none` field models a missing child element or
missing text, either of which raises and causes the entry to be skipped. -/
structure RawEntry where
  title : Option String
  summary : Option String
  published : Option String
  link : Option String
  authors : List AuthorElem
deriving DecidableEq

/-- The author-collection loop (source lines 147–151): `none` models the
entry-killing exception raised by `name.text.strip()` on empty text. -/
def parseAuthors : List AuthorElem → Option (List String)
  | [] => some []
  | .noName :: rest => parseAuthors rest
  | .nameNoText :: _ => none
  | .nameText s :: rest => (parseAuthors rest).map (pyStripStr s :: ·)

/-- The per-entry try-block (source lines 141–164). `h` stands for Python's
(seed-dependent) string `hash`; `pos` is `len(papers)`, the number of papers
accumulated so far. Any exception yields `none` (the entry is skipped). -/
def parseEntry (h : String → Int) (pos : Nat) (e : RawEntry) : Option Paper :=
  match e.title, e.summary, e.published, e.link with
  | some t, some s, some pub, some l =>
    match parseAuthors e.authors with
    | none => none
    | some as =>
      let link := pyStripStr l
      some { id := toString (h link) ++ "_" ++ toString pos
             title := pyStripStr t
             authors := if as = [] then ["Unknown Author"] else as
             summary := normalizeSummary (pyStripStr s)
             link := link
             published := pyStripStr pub
             has_full_text := false
             category := none }
  | _, _, _, _ => none

/-- The entry loop of `fetch_arxiv_papers_simple` (source lines 139–168):
`cnt` is the running `len(papers)` used in the generated id; entries that
fail to parse are skipped. -/
def parseEntriesGo (h : String → Int) (cnt : Nat) : List RawEntry → List Paper
  | [] => []
  | e :: rest =>
    match parseEntry h cnt e with
    | some p => p :: parseEntriesGo h (cnt + 1) rest
    | none => parseEntriesGo h cnt rest

/-- One raw record of the `MOCK_PAPERS` fallback catalog (source lines
26–35): plain metadata without id / has_full_text / category. -/
structure MockPaper where
  title : String
  authors : List String
  summary : String
  link : String
  published : String
deriving DecidableEq

/-- The single concrete record of `MOCK_PAPERS` in the source. -/
def attentionPaper : MockPaper :=
  { title := "Attention Is All You Need"
    authors := ["Ashish Vaswani", "Noam Shazeer", "Niki Parmar"]
    summary := "The dominant sequence transduction models are based on complex recurrent or convolutional neural networks that include an encoder and a decoder. The best performing models also connect the encoder and decoder through an attention mechanism. We propose a new simple network architecture, the Transformer, based solely on attention mechanisms, dispensing with recurrence and convolutions entirely."
    link := "https://arxiv.org/abs/1706.03762"
    published := "2017-06-12T17:18:52Z" }

/-- `MOCK_PAPERS` (source lines 26–35). -/
def MOCK_PAPERS : List MockPaper := [attentionPaper]

/-- The relevance test of `get_mock_papers_for_query` (source lines
183–188): some token of `query.lower().split()` occurs as a substring of
`f"{title} {summary}".lower()`. -/
def queryMatches (query : String) (p : MockPaper) : Bool :=
  (pySplitWs (lowerList query.data)).any fun w =>
    containsSub w (lowerList (p.title ++ " " ++ p.summary).data)

/-- The `paper.copy()` decoration applied to a selected catalog record
(source lines 189–191 and 197–199): index-derived id, `has_full_text`
false; `category` is attached later. -/
def basePaper (i : Nat) (mp : MockPaper) : Paper :=
  { id := "mock_" ++ toString i
    title := mp.title
    authors := mp.authors
    summary := mp.summary
    link := mp.link
    published := mp.published
    has_full_text := false
    category := none }

/-- The filtered selection `relevant_papers` (source lines 184–192). -/
def mockRelevant (query : String) : List Paper :=
  MOCK_PAPERS.enum.filterMap fun ip =>
    if queryMatches query ip.2 then some (basePaper ip.1 ip.2) else none

/-- `relevant_papers` after the empty-fallback step (source lines 195–200):
if nothing matched, the first `maxResults` catalog entries are used. -/
def mockChosen (query : String) (maxResults : Nat) : List Paper :=
  if mockRelevant query = [] then
    (MOCK_PAPERS.take maxResults).enum.map fun ip => basePaper ip.1 ip.2
  else mockRelevant query

/-- `get_mock_papers_for_query` (source lines 178–206): decorate the chosen
records with `category = query` and truncate to `maxResults`. -/
def get_mock_papers_for_query (query : String) (maxResults : Nat) : List Paper :=
  ((mockChosen query maxResults).map fun p => { p with category := some query }).take maxResults

/-- Outcome of the arXiv metadata HTTP request in
`fetch_arxiv_papers_simple`: `failed` models a network/timeout/XML-parse
exception, `ok` a response with its status code and parsed feed entries. -/
inductive ArxivResult
  | failed
  | ok (status : Nat) (entries : List RawEntry)

/-- `fetch_arxiv_papers_simple` (source lines 105–176): any exception, a
non-200 status, or an empty feed falls back to the mock catalog; otherwise
the parsed entries are returned with no further truncation. -/
def fetch_arxiv_papers_simple (h : String → Int) (query : String) (maxResults : Nat)
    (resp : ArxivResult) : List Paper :=
  match resp with
  | .failed => get_mock_papers_for_query query maxResults
  | .ok status entries =>
    if status ≠ 200 then get_mock_papers_for_query query maxResults
    else if entries.length = 0 then get_mock_papers_for_query query maxResults
    else parseEntriesGo h 0 entries

/-! ## Content Cache and Request Handlers (source lines 23, 243–396) -/

/-- The process-lifetime `paper_content_cache` dictionary, as an
association list from paper id to extracted text (the handlers only insert
ids that are absent, so list shadowing never arises). -/
abbrev Cache := List (String × String)

/-- `paper_id in paper_content_cache` / `paper_content_cache[paper_id]`. -/
def cacheLookup (c : Cache) (paperId : String) : Option String :=
  List.lookup paperId c

/-- The distinct response shapes of the `/download-paper/<paper_id>`
handler. -/
inductive DownloadResp
  | badRequest
  | alreadyCached (textLength : Nat)
  | downloaded (textLength : Nat)
  | extractFailed
deriving DecidableEq

/-- The `/download-paper/<paper_id>` handler `download_paper` (source lines
243–294): missing or empty link is a 400; an already-cached id returns the
cached length without touching the network; otherwise the extractor runs
and its text, if any, is inserted into the cache. -/
def download_paper (d : DocInput) (c : Cache) (paperId : String)
    (bodyLink : Option String) : DownloadResp × Cache :=
  match bodyLink with
  | none => (.badRequest, c)
  | some link =>
    if link = "" then (.badRequest, c)
    else
      match cacheLookup c paperId with
      | some cached => (.alreadyCached cached.length, c)
      | none =>
        match download_paper_pdf link d with
        | none => (.extractFailed, c)
        | some fullText => (.downloaded fullText.length, (paperId, fullText) :: c)

/-- The distinct response shapes of the `/paper-content/<paper_id>`
handler. -/
inductive ContentResp
  | notFound
  | ok (preview : String) (fullLength : Nat)
deriving DecidableEq

/-- The `/paper-content/<paper_id>` handler `get_paper_content` (source
lines 296–324): a cache miss is a 404; otherwise a 1000-character preview
with ellipsis is served. The cache is read, never written. -/
def get_paper_content (c : Cache) (paperId : String) : ContentResp × Cache :=
  match cacheLookup c paperId with
  | none => (.notFound, c)
  | some content =>
    let preview := if 1000 < content.length then pyTake 1000 content ++ "..." else content
    (.ok preview content.length, c)

/-- The truncation marker inserted by `ask_paper_question`
(source line 354). -/
def truncationMarker : String := "\n\n[... content truncated ...]\n\n"

/-- The content-budget truncation of `ask_paper_question` (source lines
351–356) with the budget `max_content_length` abstracted: Python computes
`full[:m//2] + marker + full[-m//2:]`, i.e. the first `m / 2` and the last
`(m + 1) / 2` characters (`-m // 2` floors, so the tail index is the
ceiling of `m / 2`). -/
def truncate_content (m : Nat) (s : String) : String × Bool :=
  if m < s.length then
    (pyTake (m / 2) s ++ truncationMarker ++ pyTakeLast ((m + 1) / 2) s, true)
  else (s, false)

/-- The distinct response shapes of the `/ask-paper/<paper_id>` handler. -/
inductive AskResp
  | badRequest
  | notFound
  | ok (paperContent : String) (contentLength : Nat) (isTruncated : Bool) (question : String)
deriving DecidableEq

/-- The `/ask-paper/<paper_id>` handler `ask_paper_question` (source lines
326–372): empty question is a 400, cache miss a 404; otherwise the cached
text is truncated under the fixed budget `max_content_length = 15000`. The
cache is read, never written. -/
def ask_paper_question (c : Cache) (paperId : String) (question : String) : AskResp × Cache :=
  if question = "" then (.badRequest, c)
  else
    match cacheLookup c paperId with
    | none => (.notFound, c)
    | some fullContent =>
      let tc := truncate_content 15000 fullContent
      (.ok tc.1 fullContent.length tc.2 question, c)

/-- The `/cache-status` handler `cache_status` (source lines 383–396):
per-id length and 200-character preview. The cache is read, never
written. -/
def cache_status (c : Cache) : List (String × Nat × String) × Cache :=
  (c.map fun e => (e.1, e.2.length, if 200 < e.2.length then pyTake 200 e.2 ++ "..." else e.2), c)

/-- The quality invariant claimed for the content cache: every stored text
has stripped length at least 100. -/
def cacheInv (c : Cache) : Prop := ∀ e ∈ c, 100 ≤ strippedLen e.2

/-- A fallback-triggering outcome of the metadata request: network or parse
failure, non-200 status, or an empty feed. -/
def fallbackTriggered : ArxivResult → Prop
  | .failed => True
  | .ok status entries => status ≠ 200 ∨ entries = []

/-- A stand-in for Python's seed-dependent string hash, for concrete
evaluations. -/
def hash0 : String → Int := fun _ => 0

/-- A minimal feed entry that parses successfully. -/
def plainEntry : RawEntry :=
  { title := some "T", summary := some "S", published := some "P"
    link := some "L", authors := [] }

/-- The paper record produced by parsing `plainEntry` at position 0 with
hash `hash0`. -/
def paperNoAuthors : Paper :=
  { id := "0_0", title := "T", authors := ["Unknown Author"], summary := "S"
    link := "L", published := "P", has_full_text := false, category := none }

/-- A 20000-character cached text for the truncation scenario. -/
def bigText : String := ⟨List.replicate 20000 'a'⟩

/-! ## Shared lemmas -/

/-- The quality gate of `download_paper_pdf`: any text it returns has
stripped length at least 100. -/
theorem extraction_gate (link : String) (d : DocInput) (t : String)
    (ht : download_paper_pdf link d = some t) : 100 ≤ strippedLen t := by
  unfold download_paper_pdf at ht
  rcases d with ⟨dl, pri, sec⟩
  cases dl
  · simp at ht
  · cases pri with
    | ok pages =>
      by_cases hg : strippedLen (primaryFullText pages) < 100
      · simp [hg] at ht
      · simp [hg] at ht
        rw [← ht]
        exact Nat.le_of_not_lt hg
    | error u =>
      cases sec with
      | ok pages =>
        by_cases hg : strippedLen (secondaryFullText pages) < 100
        · simp [hg] at ht
        · simp [hg] at ht
          rw [← ht]
          exact Nat.le_of_not_lt hg
      | error u' => simp at ht

/-- Any fallback-triggering metadata outcome routes `fetch` to the mock
catalog. -/
theorem fetch_fallback_eq (h : String → Int) (query : String) (maxResults : Nat)
    (resp : ArxivResult) (hfb : fallbackTriggered resp) :
    fetch_arxiv_papers_simple h query maxResults resp
      = get_mock_papers_for_query query maxResults := by
  cases resp with
  | failed => rfl
  | ok status entries =>
    rcases hfb with hst | hent
    · simp [fetch_arxiv_papers_simple, hst]
    · subst hent
      simp [fetch_arxiv_papers_simple]

/-- The mock path returns at most `maxResults` records. -/
theorem get_mock_length_le (query : String) (maxResults : Nat) :
    (get_mock_papers_for_query query maxResults).length ≤ maxResults := by
  unfold get_mock_papers_for_query
  exact List.length_take_le _ _

/-- The live parsing loop produces at most one record per feed entry. -/
theorem parseEntriesGo_length_le (h : String → Int) :
    ∀ (es : List RawEntry) (cnt : Nat), (parseEntriesGo h cnt es).length ≤ es.length := by
  intro es
  induction es with
  | nil => intro cnt; simp [parseEntriesGo]
  | cons e rest ih =>
    intro cnt
    unfold parseEntriesGo
    cases parseEntry h cnt e with
    | none =>
      simp only [List.length_cons]
      exact (ih cnt).trans (Nat.le_succ _)
    | some p =>
      simp only [List.length_cons]
      exact Nat.succ_le_succ (ih (cnt + 1))

/-- The filtered fallback selection on the concrete one-record catalog. -/
theorem mockRelevant_eq (query : String) :
    mockRelevant query
      = if queryMatches query attentionPaper then [basePaper 0 attentionPaper] else [] := by
  by_cases hm : queryMatches query attentionPaper <;>
    simp [mockRelevant, MOCK_PAPERS, List.enum, List.enumFrom, List.filterMap, hm]

/-! ## Claims -/

/-- C1: the claim states that a primary extraction that succeeds
structurally but fails the 100-character quality gate leads to an attempt
of the secondary extractor before failing. The code refutes this: here the
primary succeeds with a short text while the secondary extractor would
produce a 100-character text passing the gate, yet `download_paper_pdf`
fails (returns `none`), so the secondary method was not attempted. -/
theorem c1_counterexample :
    download_paper_pdf "https://arxiv.org/abs/1706.03762"
      ⟨true, .ok ["x"], .ok [goodPage]⟩ = none ∧
    strippedLen (primaryFullText ["x"]) < 100 ∧
    100 ≤ strippedLen (secondaryFullText [goodPage]) := by
  refine ⟨by decide, by decide, by decide⟩

/-- C1 (amended): when the primary extraction succeeds structurally but its
stripped text is shorter than 100 characters, `download_paper_pdf` fails
immediately with `none`, without attempting the secondary method — the
result does not depend on the secondary extractor's outcome at all. The
secondary method is attempted only when the primary extraction raises. -/
theorem c1_theorem (link : String) (pages : List String)
    (sec sec' : Except Unit (List String))
    (hshort : strippedLen (primaryFullText pages) < 100) :
    download_paper_pdf link ⟨true, .ok pages, sec⟩ = none ∧
    download_paper_pdf link ⟨true, .ok pages, sec⟩
      = download_paper_pdf link ⟨true, .ok pages, sec'⟩ := by
  constructor <;> simp [download_paper_pdf, hshort]

/-- C1 witness: the amended theorem applied at a concrete short primary
output. -/
theorem c1_witness :
    download_paper_pdf "https://arxiv.org/abs/1706.03762"
      ⟨true, .ok ["x"], .error ()⟩ = none :=
  (c1_theorem ("https://arxiv.org/abs/1706.03762") ["x"] (.error ()) (.ok [goodPage])
    (by decide)).1

/-- C2: the claim states that the extractor's failure outcomes are
distinguishable by reason (`download-failed` vs `extraction-failed` vs
`content-too-short`). The code refutes this: a download failure, a double
extraction error, and a double short-content outcome all produce the very
same terminal value `none`, so no reason can be recovered from the
outcome. -/
theorem c2_counterexample :
    download_paper_pdf "L" ⟨false, .ok [goodPage], .ok [goodPage]⟩ = none ∧
    download_paper_pdf "L" ⟨true, .error (), .error ()⟩ = none ∧
    download_paper_pdf "L" ⟨true, .ok ["x"], .ok ["y"]⟩ = none ∧
    download_paper_pdf "L" ⟨false, .ok [goodPage], .ok [goodPage]⟩
      = download_paper_pdf "L" ⟨true, .error (), .error ()⟩ := by
  refine ⟨by decide, by decide, by decide, by decide⟩

/-- C2 (amended): the extractor collapses every failure to the single
undistinguished value `none`; precisely, `download_paper_pdf` fails exactly
when the download fails, or the primary succeeds below the gate, or the
primary raises and the secondary raises, or the primary raises and the
secondary succeeds below the gate — and in all four cases the outcome is
the same `none`, with no reason attached. -/
theorem c2_theorem (link : String) (d : DocInput) :
    download_paper_pdf link d = none ↔
      d.downloadOk = false ∨
      (∃ pages, d.primary = .ok pages ∧ strippedLen (primaryFullText pages) < 100) ∨
      (d.primary = .error () ∧ d.secondary = .error ()) ∨
      (d.primary = .error () ∧
        ∃ pages, d.secondary = .ok pages ∧ strippedLen (secondaryFullText pages) < 100) := by
  rcases d with ⟨dl, pri, sec⟩
  cases dl
  · simp [download_paper_pdf]
  · cases pri with
    | ok pages =>
      by_cases hg : strippedLen (primaryFullText pages) < 100 <;>
        simp [download_paper_pdf, hg]
    | error u =>
      cases u
      cases sec with
      | ok pages =>
        by_cases hg : strippedLen (secondaryFullText pages) < 100 <;>
          simp [download_paper_pdf, hg]
      | error u' =>
        cases u'
        simp [download_paper_pdf]

/-- C3: the claim states that on the live path the accumulated list is
truncated to `maxResults` if the source over-returns. The code refutes
this: a 200-status feed with two parseable entries under `maxResults = 1`
makes `fetch_arxiv_papers_simple` return 2 records. -/
theorem c3_counterexample :
    (fetch_arxiv_papers_simple hash0 "q" 1 (.ok 200 [plainEntry, plainEntry])).length = 2 ∧
    1 < (fetch_arxiv_papers_simple hash0 "q" 1 (.ok 200 [plainEntry, plainEntry])).length := by
  refine ⟨by decide, by decide⟩

/-- C3 (amended): the fallback path returns at most `maxResults` records,
but the live path applies no local truncation: it returns exactly the
successfully parsed entries (at most one record per feed entry), relying on
the source to honor the requested bound. -/
theorem c3_theorem (h : String → Int) (query : String) (maxResults : Nat)
    (resp : ArxivResult) :
    (fallbackTriggered resp →
      fetch_arxiv_papers_simple h query maxResults resp
        = get_mock_papers_for_query query maxResults ∧
      (fetch_arxiv_papers_simple h query maxResults resp).length ≤ maxResults) ∧
    (∀ status entries, resp = .ok status entries → status = 200 → entries ≠ [] →
      fetch_arxiv_papers_simple h query maxResults resp = parseEntriesGo h 0 entries ∧
      (parseEntriesGo h 0 entries).length ≤ entries.length) := by
  constructor
  · intro hfb
    have heq := fetch_fallback_eq h query maxResults resp hfb
    refine ⟨heq, ?_⟩
    rw [heq]
    exact get_mock_length_le query maxResults
  · intro status entries hre h200 hne
    subst hre
    subst h200
    have hlen : entries.length ≠ 0 := by
      simpa using fun hz => hne (List.length_eq_zero.1 hz)
    refine ⟨by simp [fetch_arxiv_papers_simple, hlen], parseEntriesGo_length_le h entries 0⟩

/-- C3 witness: the amended theorem applied on a concrete fallback outcome
and a concrete live outcome. -/
theorem c3_witness :
    fetch_arxiv_papers_simple hash0 "q" 2 .failed = get_mock_papers_for_query "q" 2 ∧
    fetch_arxiv_papers_simple hash0 "q" 2 (.ok 200 [plainEntry])
      = parseEntriesGo hash0 0 [plainEntry] :=
  ⟨((c3_theorem hash0 "q" 2 .failed).1 trivial).1,
   ((c3_theorem hash0 "q" 2 (.ok 200 [plainEntry])).2 200 [plainEntry] rfl rfl
      (by decide)).1⟩

/-- C6: the document resolver is a pure total function on link strings: the
concrete arXiv abstract link resolves to the corresponding PDF link; any
link not containing the abstract-page pattern passes through unchanged; and
any link containing it is rewritten by the `/abs/` → `/pdf/` path-segment
substitution with the `.pdf` suffix appended. -/
theorem c6_theorem (link : String) :
    resolveLink "https://arxiv.org/abs/1706.03762" = "https://arxiv.org/pdf/1706.03762.pdf" ∧
    (hasArxivAbs link.data = false → resolveLink link = link) ∧
    (hasArxivAbs link.data = true →
      resolveLink link = (⟨replaceAbs link.data⟩ : String) ++ ".pdf") :=
  ⟨by decide, fun hf => by simp [resolveLink, hf], fun ht => by simp [resolveLink, ht]⟩

/-- C6 witness: a direct non-arXiv document URI passes through unchanged. -/
theorem c6_witness :
    resolveLink "http://example.com/paper.pdf" = "http://example.com/paper.pdf" :=
  (c6_theorem ("http://example.com/paper.pdf")).2.1 (by decide)

/-- C7: a download request for an id already present in the content cache
is a no-op on the cache: the handler returns the cached entry's length and
leaves the cache exactly as it was, and its outcome is independent of the
download/extraction oracle (no network I/O is consulted). -/
theorem c7_theorem (d d' : DocInput) (c : Cache) (paperId link text : String)
    (hl : link ≠ "") (hc : cacheLookup c paperId = some text) :
    download_paper d c paperId (some link) = (.alreadyCached text.length, c) ∧
    download_paper d c paperId (some link) = download_paper d' c paperId (some link) := by
  constructor <;> simp [download_paper, hl, hc]

/-- C7 witness: the cached-id theorem at a concrete cache. -/
theorem c7_witness :
    download_paper ⟨true, .ok [], .ok []⟩ [("p1", "hello")] "p1" (some "x")
      = (.alreadyCached ("hello" : String).length, [("p1", "hello")]) :=
  (c7_theorem ⟨true, .ok [], .ok []⟩ ⟨false, .error (), .error ()⟩ [("p1", "hello")]
    "p1" "x" "hello" (by decide) (by decide)).1

/-- C8: every successfully parsed feed entry yields a record with a
non-empty `authors` sequence, and when no author names were collected the
placeholder `["Unknown Author"]` is substituted. -/
theorem c8_theorem (h : String → Int) (pos : Nat) (e : RawEntry) (p : Paper)
    (hp : parseEntry h pos e = some p) :
    p.authors ≠ [] ∧ (parseAuthors e.authors = some [] → p.authors = ["Unknown Author"]) := by
  rcases e with ⟨t, s, pub, l, as⟩
  cases t with
  | none => simp [parseEntry] at hp
  | some t =>
    cases s with
    | none => simp [parseEntry] at hp
    | some s =>
      cases pub with
      | none => simp [parseEntry] at hp
      | some pub =>
        cases l with
        | none => simp [parseEntry] at hp
        | some l =>
          cases has : parseAuthors as with
          | none => simp [parseEntry, has] at hp
          | some names =>
            simp [parseEntry, has] at hp
            by_cases hn : names = []
            · subst hn
              constructor
              · rw [← hp]
                simp
              · intro _
                rw [← hp]
                simp
            · constructor
              · rw [← hp]
                simp [hn]
              · intro habs
                exact absurd (Option.some.inj habs) hn

/-- C8 witness: a concrete entry with an empty author list parses to the
placeholder author sequence. -/
theorem c8_witness :
    paperNoAuthors.authors ≠ [] ∧
    (parseAuthors plainEntry.authors = some [] → paperNoAuthors.authors = ["Unknown Author"]) :=
  c8_theorem hash0 0 plainEntry paperNoAuthors (by decide)

/-- C4: whenever the metadata source is unreachable, returns a non-200
status, or returns zero entries, `fetch` returns exactly the fallback
selection; and every record of that selection originates from the fallback
catalog — selected because some lowercased whitespace token of the query
occurs in the lowercased concatenation of its title and summary, or taken
from the first `maxResults` catalog entries when no record matches — and
carries `has_full_text = false`, the fallback-scoped id `mock_<i>`, and
`category` equal to the query string. -/
theorem c4_theorem (h : String → Int) (query : String) (maxResults : Nat)
    (resp : ArxivResult) (hfb : fallbackTriggered resp) :
    fetch_arxiv_papers_simple h query maxResults resp
      = get_mock_papers_for_query query maxResults ∧
    ∀ p ∈ get_mock_papers_for_query query maxResults,
      p.has_full_text = false ∧ p.category = some query ∧
      ∃ i mp, MOCK_PAPERS.get? i = some mp ∧
        p.id = "mock_" ++ toString i ∧ p.title = mp.title ∧ p.summary = mp.summary ∧
        p.authors = mp.authors ∧ p.link = mp.link ∧ p.published = mp.published ∧
        (queryMatches query mp = true ∨
          ((∀ mp' ∈ MOCK_PAPERS, queryMatches query mp' = false) ∧ i < maxResults)) := by
  refine ⟨fetch_fallback_eq h query maxResults resp hfb, ?_⟩
  intro p hp
  have hp' : p ∈ (mockChosen query maxResults).map fun q => { q with category := some query } :=
    List.take_subset _ _ hp
  obtain ⟨p0, hp0, rfl⟩ := List.mem_map.1 hp'
  by_cases hm : queryMatches query attentionPaper
  · have hrel : mockRelevant query = [basePaper 0 attentionPaper] := by
      rw [mockRelevant_eq, if_pos hm]
    rw [mockChosen, if_neg (by simp [hrel]), hrel] at hp0
    have hp0' : p0 = basePaper 0 attentionPaper := by simpa using hp0
    subst hp0'
    exact ⟨rfl, rfl, 0, attentionPaper, rfl, rfl, rfl, rfl, rfl, rfl, rfl, Or.inl hm⟩
  · have hrel : mockRelevant query = [] := by
      rw [mockRelevant_eq, if_neg hm]
    rw [mockChosen, if_pos hrel] at hp0
    cases maxResults with
    | zero => simp [MOCK_PAPERS] at hp0
    | succ k =>
      have htake : MOCK_PAPERS.take (k + 1) = [attentionPaper] := by
        simp [MOCK_PAPERS]
      rw [htake] at hp0
      have hp0' : p0 = basePaper 0 attentionPaper := by
        simpa [List.enum, List.enumFrom] using hp0
      subst hp0'
      refine ⟨rfl, rfl, 0, attentionPaper, rfl, rfl, rfl, rfl, rfl, rfl, rfl,
        Or.inr ⟨?_, Nat.succ_pos k⟩⟩
      intro mp' hmp'
      have : mp' = attentionPaper := by simpa [MOCK_PAPERS] using hmp'
      subst this
      exact Bool.eq_false_iff.2 hm

/-- C4 witness: the theorem at a concrete failed metadata outcome. -/
theorem c4_witness :
    fetch_arxiv_papers_simple hash0 "machine learning" 6 .failed
      = get_mock_papers_for_query "machine learning" 6 :=
  (c4_theorem hash0 "machine learning" 6 .failed trivial).1

/-- C5: when the cached text fits the content budget it is returned
unchanged with `isTruncated = false`; when it exceeds the budget the
returned content is the first `m / 2` characters, the truncation marker,
and the last `m / 2` characters with `isTruncated = true` (stated for every
even budget `m`, covering the code's fixed budget 15000); the handler
serves the cached text through this truncation at budget 15000 and fails
with not-found when the id is absent from the cache. -/
theorem c5_theorem (m : Nat) (c : Cache) (paperId question : String) (text : String)
    (hm : m % 2 = 0) (hq : question ≠ "") :
    (text.length ≤ m → truncate_content m text = (text, false)) ∧
    (m < text.length → truncate_content m text =
      (pyTake (m / 2) text ++ truncationMarker ++ pyTakeLast (m / 2) text, true)) ∧
    (cacheLookup c paperId = none → ask_paper_question c paperId question = (.notFound, c)) ∧
    (∀ t, cacheLookup c paperId = some t →
      ask_paper_question c paperId question =
        (.ok (truncate_content 15000 t).1 t.length (truncate_content 15000 t).2 question, c)) := by
  refine ⟨fun hle => ?_, fun hlt => ?_, fun hnone => ?_, fun t ht => ?_⟩
  · simp [truncate_content, Nat.not_lt.2 hle]
  · have h2 : (m + 1) / 2 = m / 2 := by omega
    simp [truncate_content, hlt, h2]
  · simp [ask_paper_question, hq, hnone]
  · simp [ask_paper_question, hq, ht]

/-- C5 witness: the 20000-character scenario at budget 15000 — first 7500
characters, truncation marker, last 7500 characters, `isTruncated = true`. -/
theorem c5_witness :
    ask_paper_question [("p", bigText)] "p" "Q"
      = (.ok (pyTake 7500 bigText ++ truncationMarker ++ pyTakeLast 7500 bigText)
          bigText.length true "Q", [("p", bigText)]) := by
  have h := c5_theorem 15000 [("p", bigText)] "p" "Q" bigText (by decide) (by decide)
  have hlen : (15000 : Nat) < bigText.length := by
    show (15000 : Nat) < (List.replicate 20000 'a').length
    rw [List.length_replicate]
    norm_num
  have h4 := h.2.2.2 bigText rfl
  have h2 := h.2.1 hlen
  rw [h4, h2]

/-- Applying the whitespace-collapsing worker twice with the same starting
flag equals applying it once. -/
theorem collapseGo_twice (l : List Char) :
    ∀ b, collapseGo b (collapseGo b l) = collapseGo b l := by
  induction l with
  | nil => intro b; cases b <;> rfl
  | cons c rest ih =>
    intro b
    by_cases h : isPySpace c = true
    · cases b
      · rw [show collapseGo false (c :: rest) = ' ' :: collapseGo true rest from by
          simp [collapseGo, h]]
        rw [show collapseGo false (' ' :: collapseGo true rest)
            = ' ' :: collapseGo true (collapseGo true rest) from by
          simp [collapseGo, show isPySpace ' ' = true from rfl]]
        rw [ih true]
      · rw [show collapseGo true (c :: rest) = collapseGo true rest from by
          simp [collapseGo, h]]
        exact ih true
    · rw [Bool.not_eq_true] at h
      cases b
      · rw [show collapseGo false (c :: rest) = c :: collapseGo false rest from by
          simp [collapseGo, h]]
        rw [show collapseGo false (c :: collapseGo false rest)
            = c :: collapseGo false (collapseGo false rest) from by simp [collapseGo, h]]
        rw [ih false]
      · rw [show collapseGo true (c :: rest) = c :: collapseGo false rest from by
          simp [collapseGo, h]]
        rw [show collapseGo true (c :: collapseGo false rest)
            = c :: collapseGo false (collapseGo false rest) from by simp [collapseGo, h]]
        rw [ih false]

/-- C9: summary whitespace normalization is idempotent on every string. -/
theorem c9_theorem (s : String) :
    normalizeSummary (normalizeSummary s) = normalizeSummary s :=
  congrArg String.mk (collapseGo_twice s.data false)

/-- C10: the content-cache quality invariant — every stored text has
stripped length at least 100 — holds because the extractor only ever
returns gated text, the download handler is the only insertion site and
inserts only extractor output, and the remaining handlers leave the cache
untouched. -/
theorem c10_theorem (link : String) (d : DocInput) (c : Cache)
    (paperId question : String) (bodyLink : Option String) (hinv : cacheInv c) :
    (∀ t, download_paper_pdf link d = some t → 100 ≤ strippedLen t) ∧
    cacheInv (download_paper d c paperId bodyLink).2 ∧
    (get_paper_content c paperId).2 = c ∧
    (ask_paper_question c paperId question).2 = c ∧
    (cache_status c).2 = c := by
  refine ⟨fun t ht => extraction_gate link d t ht, ?_, ?_, ?_, rfl⟩
  · cases bodyLink with
    | none => exact hinv
    | some l =>
      by_cases hl : l = ""
      · simp [download_paper, hl]
        exact hinv
      · cases hcl : cacheLookup c paperId with
        | some cached =>
          simp [download_paper, hl, hcl]
          exact hinv
        | none =>
          cases hdl : download_paper_pdf l d with
          | none =>
            simp [download_paper, hl, hcl, hdl]
            exact hinv
          | some t =>
            simp only [download_paper, hl, hcl, hdl, if_neg]
            intro e he
            rcases List.mem_cons.1 he with rfl | hec
            · exact extraction_gate l d t hdl
            · exact hinv e hec
  · cases hcl : cacheLookup c paperId <;> simp [get_paper_content, hcl]
  · by_cases hq : question = ""
    · simp [ask_paper_question, hq]
    · cases hcl : cacheLookup c paperId <;> simp [ask_paper_question, hq, hcl]

/-- C10 witness: invariant preservation at a concrete empty cache and a
failing extraction. -/
theorem c10_witness :
    cacheInv (download_paper ⟨true, .error (), .error ()⟩ [] "p" (some "l")).2 :=
  (c10_theorem ("l") ⟨true, .error (), .error ()⟩ [] "p" "q" (some "l")
    (by simp [cacheInv])).2.1

